import Mathlib

/-!
Shallow embedding of the HAP (High Altitude Platform) simulation scenarios:
the beam-steering / link-budget engine and the per-link diagnostic
accountant found in src/unnamed/part_003, src/unnamed/part_004,
src/examples/hap-sat-hap-simple.cc, src/examples/wifi-simple-hap.cc and
src/examples/wifi-moving-hap-router.cc.

Real-valued routines (angles, gains, link budget) are embedded over ℝ;
the exact-arithmetic parts (atmospheric-loss formulas, report divisions,
flow counters) over ℚ and ℕ so that concrete instances evaluate.
-/

namespace HapSpec

noncomputable section RealModel

/-! ## Geometry primitives (part_003 lines 64-84, part_004 lines 66-87) -/

/-- 3-component vector, mirroring ns3::Vector as used by the scenarios. -/
structure Vec3 where
  x : ℝ
  y : ℝ
  z : ℝ

/-- GetVector(from, to) = to - from (part_003 line 64). -/
def GetVector (p q : Vec3) : Vec3 :=
  ⟨q.x - p.x, q.y - p.y, q.z - p.z⟩

/-- Dot product as written inline in CalculateAngle (part_003 line 72). -/
def dotProduct (v1 v2 : Vec3) : ℝ :=
  v1.x * v2.x + v1.y * v2.y + v1.z * v2.z

/-- Vector magnitude as written inline in CalculateAngle (part_003 lines 73-74). -/
def magnitude (v : Vec3) : ℝ :=
  Real.sqrt (v.x * v.x + v.y * v.y + v.z * v.z)

/-- The two range-limiting ifs applied to cosAngle (part_003 lines 80-81). -/
def clampCosine (c : ℝ) : ℝ :=
  let c1 := if c > 1 then 1 else c
  if c1 < -1 then -1 else c1

/-- The cosine handed to acos by CalculateAngle, after division and clamping. -/
def cosAngleOf (v1 v2 : Vec3) : ℝ :=
  clampCosine (dotProduct v1 v2 / (magnitude v1 * magnitude v2))

/-- CalculateAngle (part_003 lines 70-84, identical in part_004 lines 72-87):
returns 0 when either magnitude is zero, otherwise acos of the clamped cosine. -/
def CalculateAngle (v1 v2 : Vec3) : ℝ :=
  if magnitude v1 * magnitude v2 = 0 then 0
  else Real.arccos (cosAngleOf v1 v2)

/-! ## Antenna gain model (part_003 lines 87-98, part_004 lines 90-101)

The globals g_maxAntennaGain (CLI knob antGain, default 20.0) and
g_beamwidthExponent (2.0) are passed as explicit parameters. -/

/-- CalculateDirectionalGain: cosine-power approximation.
cos(angle) is clamped to ≥ 0; below the 0.01 cutoff the floor -20 dB is
returned; otherwise maxGain + 10*log10(cos^exponent). -/
def CalculateDirectionalGain (maxGain expo angleRad : ℝ) : ℝ :=
  let cosAngle := Real.cos angleRad
  let cosAngle := if cosAngle < 0 then 0 else cosAngle
  if cosAngle < 0.01 then -20
  else maxGain + 10 * Real.logb 10 (cosAngle ^ expo)

/-! ## Kinematic update (part_003 lines 101-137, part_004 lines 103-132,
wifi-moving-hap-router.cc lines 62-95) -/

/-- Mobility state of the platform: position and velocity. -/
structure HapState where
  pos : Vec3
  vel : Vec3

/-- UpdateHapState, kinematic part (part_003 lines 108-112): reads the
position and sets the velocity to (-omega*y, omega*x, 0); the position is
not written. -/
def UpdateHapState (omega : ℝ) (s : HapState) : HapState :=
  { pos := s.pos
    vel := ⟨-omega * s.pos.y, omega * s.pos.x, 0⟩ }

/-- Radius vector from the trajectory center (the point (0,0,z) at the
platform's altitude) to the platform, built with GetVector. -/
def radiusVector (s : HapState) : Vec3 :=
  GetVector ⟨0, 0, s.pos.z⟩ s.pos

/-- Between ticks the external ConstantVelocityMobilityModel advances the
position linearly by the velocity last set. -/
def driftPosition (dt : ℝ) (s : HapState) : HapState :=
  { pos := ⟨s.pos.x + dt * s.vel.x, s.pos.y + dt * s.vel.y, s.pos.z + dt * s.vel.z⟩
    vel := s.vel }

/-- One scheduler period: the UpdateHapState tick followed by dt of
constant-velocity drift. -/
def simStep (omega dt : ℝ) (s : HapState) : HapState :=
  driftPosition dt (UpdateHapState omega s)

/-- n scheduler periods starting from s. -/
def simRun (omega dt : ℝ) (s : HapState) : ℕ → HapState
  | 0 => s
  | n + 1 => simStep omega dt (simRun omega dt s n)

/-! ## Link budget (hap-sat-hap-simple.cc lines 893-923) -/

/-- fsplHap1Sat (line 893): free-space path loss with c = 3e8. -/
def fsplOf (distance frequency : ℝ) : ℝ :=
  20 * Real.logb 10 distance + 20 * Real.logb 10 frequency
    + 20 * Real.logb 10 (4 * Real.pi / 3e8)

/-- eirpSat (line 916): EIRP in dBW from tx power in dBm and tx gain. -/
def eirpOf (txPowerDbm txAntennaGain : ℝ) : ℝ :=
  txPowerDbm - 30 + txAntennaGain

/-- receivedPower (line 922): link-budget sum. -/
def receivedPowerOf (eirp fspl atmosphericLoss rxAntennaGain : ℝ) : ℝ :=
  eirp - fspl - atmosphericLoss + rxAntennaGain

/-- Modelled from the spec (section 4.3): reference FSPL definition with the
propagation speed constant c left abstract, for comparison with fsplOf. -/
def specFspl (c distance frequency : ℝ) : ℝ :=
  20 * Real.logb 10 distance + 20 * Real.logb 10 frequency
    + 20 * Real.logb 10 (4 * Real.pi / c)

/-- Modelled from the spec (section 4.3): EIRP (dBW) = txPower(dBm) - 30 +
txAntennaGain(dBi). -/
def specEirp (txPowerDbm txAntennaGain : ℝ) : ℝ :=
  txPowerDbm - 30 + txAntennaGain

/-- Modelled from the spec (section 4.3): receivedPower (dBW) = EIRP - FSPL -
atmosphericLoss + rxAntennaGain(dBi). -/
def specReceivedPower (eirp fspl atmosphericLoss rxAntennaGain : ℝ) : ℝ :=
  eirp - fspl - atmosphericLoss + rxAntennaGain

end RealModel

/-! ## Atmospheric losses over exact arithmetic
(hap-sat-hap-simple.cc, ground block lines 622-636 and Sat->HAP block
lines 894-907).  denseAtmosphereThickness is 20000.0 at line 625 but kept
as a parameter so both blocks share one embedding. -/

/-- rainLossGround (lines 628-629): rainAttenuation * min(hight, rainCloudHeight)/1000. -/
def rainLossGround (hight rainAttenuation rainCloudHeight : ℚ) : ℚ :=
  rainAttenuation * (min hight rainCloudHeight / 1000)

/-- gasPathLengthGround (line 632): min(hight, denseAtmosphereThickness)/1000. -/
def gasPathLengthGround (hight denseAtmosphereThickness : ℚ) : ℚ :=
  min hight denseAtmosphereThickness / 1000

/-- oxygenLossGround (line 633). -/
def oxygenLossGround (hight oxygenAbsorption denseAtmosphereThickness : ℚ) : ℚ :=
  oxygenAbsorption * gasPathLengthGround hight denseAtmosphereThickness

/-- vaporLossGround (line 634). -/
def vaporLossGround (hight waterVaporAbsorption denseAtmosphereThickness : ℚ) : ℚ :=
  waterVaporAbsorption * gasPathLengthGround hight denseAtmosphereThickness

/-- totalAtmosphericLossGround (line 636): sum of the three terms. -/
def totalAtmosphericLossGround (hight rainAttenuation oxygenAbsorption
    waterVaporAbsorption rainCloudHeight denseAtmosphereThickness : ℚ) : ℚ :=
  rainLossGround hight rainAttenuation rainCloudHeight
    + oxygenLossGround hight oxygenAbsorption denseAtmosphereThickness
    + vaporLossGround hight waterVaporAbsorption denseAtmosphereThickness

/-- rainLoss of the Sat->HAP block (lines 895-898): zero unless the platform
sits below the rain layer, in which case only the residual layer above it
counts. -/
def rainLossSat (hight rainAttenuation rainCloudHeight : ℚ) : ℚ :=
  if hight < rainCloudHeight then rainAttenuation * (rainCloudHeight - hight) / 1000
  else 0

/-- gasPathLength of the Sat->HAP block (lines 899-904). -/
def gasPathLengthSat (hight denseAtmosphereThickness : ℚ) : ℚ :=
  if hight < denseAtmosphereThickness then (denseAtmosphereThickness - hight) / 1000
  else 0

/-- oxygenLoss of the Sat->HAP block (line 905). -/
def oxygenLossSat (hight oxygenAbsorption denseAtmosphereThickness : ℚ) : ℚ :=
  oxygenAbsorption * gasPathLengthSat hight denseAtmosphereThickness

/-- vaporLoss of the Sat->HAP block (line 906). -/
def vaporLossSat (hight waterVaporAbsorption denseAtmosphereThickness : ℚ) : ℚ :=
  waterVaporAbsorption * gasPathLengthSat hight denseAtmosphereThickness

/-- totalAtmosphericLoss of the Sat->HAP block (line 907). -/
def totalAtmosphericLossSat (hight rainAttenuation oxygenAbsorption
    waterVaporAbsorption rainCloudHeight denseAtmosphereThickness : ℚ) : ℚ :=
  rainLossSat hight rainAttenuation rainCloudHeight
    + oxygenLossSat hight oxygenAbsorption denseAtmosphereThickness
    + vaporLossSat hight waterVaporAbsorption denseAtmosphereThickness

/-! ## Per-link diagnostic accountant
(hap-sat-hap-simple.cc lines 418-507).  Mac48Address values are embedded
as naturals; the read-only registry g_macToNodeId as a lookup function;
the group/broadcast tests of Mac48Address as abstract boolean predicates;
std::map with operator[] default-insertion as an association list. -/

/-- FlowLinkStats (lines 421-425), with C++ default member initializers 0. -/
structure FlowLinkStats where
  txPackets : ℕ
  rxPackets : ℕ
  rxDropped : ℕ

/-- The value a std::map operator[] miss default-constructs. -/
def zeroStats : FlowLinkStats := ⟨0, 0, 0⟩

/-- WifiMacHeader fields the callbacks read: Addr1 (receiver) and Addr2
(transmitter). -/
structure WifiMacHeader where
  addr1 : ℕ
  addr2 : ℕ

/-- g_flowStats (line 427), as an association list keyed by
(srcNodeId, dstNodeId). -/
abbrev FlowStatsMap : Type := List ((ℕ × ℕ) × FlowLinkStats)

/-- Lookup a key in the flow map. -/
def mapFind (k : ℕ × ℕ) : FlowStatsMap → Option FlowLinkStats
  | [] => none
  | e :: rest => if e.1 = k then some e.2 else mapFind k rest

/-- std::map operator[] followed by a counter bump: update in place if the
key exists, otherwise default-insert zeroStats and update that. -/
def mapUpdate (k : ℕ × ℕ) (f : FlowLinkStats → FlowLinkStats) :
    FlowStatsMap → FlowStatsMap
  | [] => [(k, f zeroStats)]
  | e :: rest => if e.1 = k then (e.1, f e.2) :: rest else e :: mapUpdate k f rest

/-- Counters currently recorded for a key (zero-initialized on a miss,
as operator[] would produce). -/
def statsOf (m : FlowStatsMap) (k : ℕ × ℕ) : FlowLinkStats :=
  (mapFind k m).getD zeroStats

/-- PhyTxBeginCallback (lines 457-470): group destinations are ignored,
unresolved destinations are ignored, otherwise txPackets of
(thisNodeId, destNodeId) is incremented. -/
def PhyTxBeginCallback (reg : ℕ → Option ℕ) (isGroup : ℕ → Bool)
    (deviceNodeId : ℕ) (header : WifiMacHeader) (m : FlowStatsMap) : FlowStatsMap :=
  let destAddr := header.addr1
  if isGroup destAddr then m
  else
    match reg destAddr with
    | some dstId =>
        mapUpdate (deviceNodeId, dstId)
          (fun s => { s with txPackets := s.txPackets + 1 }) m
    | none => m

/-- PhyRxDropCallback (lines 472-483): when the header parses and the source
address resolves, rxDropped of (srcNodeId, thisNodeId) is incremented;
otherwise nothing happens.  PeekHeader failure is the none case. -/
def PhyRxDropCallback (reg : ℕ → Option ℕ) (deviceNodeId : ℕ)
    (parsedHeader : Option WifiMacHeader) (m : FlowStatsMap) : FlowStatsMap :=
  match parsedHeader with
  | some header =>
      match reg header.addr2 with
      | some srcId =>
          mapUpdate (srcId, deviceNodeId)
            (fun s => { s with rxDropped := s.rxDropped + 1 }) m
      | none => m
  | none => m

/-- PhyRxEndCallback (lines 485-507): a packet is counted only when the
header parses, the destination is this device's own address or a broadcast,
and the source resolves; then rxPackets of (srcNodeId, thisNodeId) is
incremented. -/
def PhyRxEndCallback (reg : ℕ → Option ℕ) (isBroadcast : ℕ → Bool)
    (deviceNodeId myAddr : ℕ) (parsedHeader : Option WifiMacHeader)
    (m : FlowStatsMap) : FlowStatsMap :=
  match parsedHeader with
  | some header =>
      if header.addr1 = myAddr ∨ isBroadcast header.addr1 then
        match reg header.addr2 with
        | some srcId =>
            mapUpdate (srcId, deviceNodeId)
              (fun s => { s with rxPackets := s.rxPackets + 1 }) m
        | none => m
      else m
  | none => m

/-! ## Report divisions over exact arithmetic.
Each C++ double division is embedded through divQ, which records a zero
denominator as none; a report that comes back none evaluated a division
by zero. -/

/-- Guarded division: none exactly when the code would divide by zero. -/
def divQ (a b : ℚ) : Option ℚ :=
  if b = 0 then none else some (a / b)

/-- The FlowMonitor per-flow fields read by the textual reports. -/
structure MonitorFlowStats where
  txPackets : ℕ
  rxPackets : ℕ
  rxBytes : ℕ
  timeFirstTxPacket : ℚ
  timeLastRxPacket : ℚ
  delaySum : ℚ

/-- Report body of wifi-simple-hap.cc (lines 272-283), also part_000 lines
261-271 and part_001 lines 270-280: the loss-ratio and throughput divisions
are evaluated unconditionally; only the delay division is guarded by
rxPackets > 0. -/
def simpleFlowReport (s : MonitorFlowStats) : Option (ℚ × ℚ × Option ℚ) := do
  let lostFrac ← divQ ((s.txPackets : ℚ) - (s.rxPackets : ℚ)) (s.txPackets : ℚ)
  let throughput ← divQ ((s.rxBytes : ℚ) * 8) (s.timeLastRxPacket - s.timeFirstTxPacket)
  let delayPart ←
    if 0 < s.rxPackets then do
      let d ← divQ s.delaySum (s.rxPackets : ℚ)
      pure (some d)
    else pure none
  pure (lostFrac * 100, throughput, delayPart)

/-- Report body of hap-sat-hap-simple.cc (lines 341-353), with the same
shape in hap-sat-hap.cc lines 183-195, wifi-moving-hap-router.cc lines
380-392, part_002 lines 275-287, part_003 lines 366-379 and part_004
lines 385-397: the loss-ratio division runs only under txPackets > 0, the
throughput and delay divisions only under rxPackets > 0. -/
def guardedFlowReport (s : MonitorFlowStats) :
    Option (Option ℚ × Option (ℚ × ℚ)) := do
  let lossPart ←
    if 0 < s.txPackets then do
      let lostFrac ← divQ ((s.txPackets : ℚ) - (s.rxPackets : ℚ)) (s.txPackets : ℚ)
      pure (some (lostFrac * 100))
    else pure none
  let throughputPart ←
    if 0 < s.rxPackets then do
      let throughput ← divQ ((s.rxBytes : ℚ) * 8)
        (s.timeLastRxPacket - s.timeFirstTxPacket)
      let delay ← divQ s.delaySum (s.rxPackets : ℚ)
      pure (some (throughput, delay))
    else pure none
  pure (lossPart, throughputPart)

/-- Per-flow table lossRatio of hap-sat-hap-simple.cc (lines 1008-1009):
lossRatio starts at 0 and the division rxDropped/txPackets runs only when
txPackets > 0. -/
def perFlowLossRatio (st : FlowLinkStats) : Option ℚ :=
  if 0 < st.txPackets then
    (divQ (st.rxDropped : ℚ) (st.txPackets : ℚ)).map (fun r => r * 100)
  else some 0

/-! ## Helper lemmas -/

lemma logb_ten_inv_hundred : Real.logb 10 (1 / 100) = -2 := by
  have h : (10 : ℝ) ^ ((-2 : ℝ)) = 1 / 100 := by
    rw [show ((-2 : ℝ)) = ((-2 : ℤ) : ℝ) by norm_num, Real.rpow_intCast]
    norm_num
  rw [← h]
  exact Real.logb_rpow (by norm_num) (by norm_num)

lemma logb_ten_inv_ten : Real.logb 10 (1 / 10) = -1 := by
  have h : (10 : ℝ) ^ ((-1 : ℝ)) = 1 / 10 := by
    rw [show ((-1 : ℝ)) = ((-1 : ℤ) : ℝ) by norm_num, Real.rpow_intCast]
    norm_num
  rw [← h]
  exact Real.logb_rpow (by norm_num) (by norm_num)

lemma gain_formula_of_ge {maxGain expo angleRad : ℝ}
    (h : 0.01 ≤ Real.cos angleRad) :
    CalculateDirectionalGain maxGain expo angleRad
      = maxGain + 10 * Real.logb 10 (Real.cos angleRad ^ expo) := by
  have h0 : ¬ Real.cos angleRad < 0 := by linarith
  have h1 : ¬ Real.cos angleRad < 0.01 := by linarith
  simp only [CalculateDirectionalGain, if_neg h0, if_neg h1]

lemma gain_floor_of_lt {maxGain expo angleRad : ℝ}
    (h : Real.cos angleRad < 0.01) :
    CalculateDirectionalGain maxGain expo angleRad = -20 := by
  by_cases h0 : Real.cos angleRad < 0
  · simp only [CalculateDirectionalGain, if_pos h0]
    norm_num
  · simp only [CalculateDirectionalGain, if_neg h0, if_pos h]

lemma gain_ge_floor {maxGain expo angleRad : ℝ} (he : 0 ≤ expo)
    (hm : 20 * expo - 20 ≤ maxGain) :
    -20 ≤ CalculateDirectionalGain maxGain expo angleRad := by
  by_cases hc : Real.cos angleRad < 0.01
  · rw [gain_floor_of_lt hc]
  · push_neg at hc
    rw [gain_formula_of_ge hc]
    have hcpos : (0 : ℝ) < Real.cos angleRad := lt_of_lt_of_le (by norm_num) hc
    have hlogb : Real.logb 10 (Real.cos angleRad ^ expo)
        = expo * Real.logb 10 (Real.cos angleRad) :=
      Real.logb_rpow_eq_mul_logb_of_pos hcpos
    have hge : (-2 : ℝ) ≤ Real.logb 10 (Real.cos angleRad) := by
      have := Real.logb_le_logb_of_le (by norm_num : (1 : ℝ) < 10)
        (by norm_num : (0 : ℝ) < 1 / 100) (by linarith : (1 : ℝ) / 100 ≤ Real.cos angleRad)
      rw [logb_ten_inv_hundred] at this
      exact this
    have hmul : expo * (-2) ≤ expo * Real.logb 10 (Real.cos angleRad) :=
      mul_le_mul_of_nonneg_left hge he
    rw [hlogb]
    linarith

lemma gain_zero_eq_max (maxGain expo : ℝ) :
    CalculateDirectionalGain maxGain expo 0 = maxGain := by
  have h : (0.01 : ℝ) ≤ Real.cos 0 := by rw [Real.cos_zero]; norm_num
  rw [gain_formula_of_ge h, Real.cos_zero, Real.one_rpow, Real.logb_one]
  ring

/-! ## Claim theorems -/

/-- C1 (amended): for configurations with beamwidthExponent ≥ 0 and
maxGain ≥ 20·beamwidthExponent − 20 (the shipped defaults maxGain = 20,
exponent = 2 satisfy this with equality), CalculateDirectionalGain is
monotonically non-increasing on angular offsets in [0, π/2]; and for every
configuration, CalculateDirectionalGain at offset 0 equals maxGain. -/
theorem gain_monotone_amended :
    (∀ maxGain expo t1 t2 : ℝ, 0 ≤ expo → 20 * expo - 20 ≤ maxGain →
      0 ≤ t1 → t1 ≤ t2 → t2 ≤ Real.pi / 2 →
      CalculateDirectionalGain maxGain expo t2
        ≤ CalculateDirectionalGain maxGain expo t1) ∧
    (∀ maxGain expo : ℝ, CalculateDirectionalGain maxGain expo 0 = maxGain) := by
  constructor
  · intro maxGain expo t1 t2 he hm h1 h12 h2
    have ht2pi : t2 ≤ Real.pi := le_trans h2 (by linarith [Real.pi_pos])
    have hcos21 : Real.cos t2 ≤ Real.cos t1 :=
      Real.cos_le_cos_of_nonneg_of_le_pi h1 ht2pi h12
    by_cases hc1 : Real.cos t1 < 0.01
    · have hc2 : Real.cos t2 < 0.01 := lt_of_le_of_lt hcos21 hc1
      rw [gain_floor_of_lt hc1, gain_floor_of_lt hc2]
    · push_neg at hc1
      by_cases hc2 : Real.cos t2 < 0.01
      · rw [gain_floor_of_lt hc2]
        exact gain_ge_floor he hm
      · push_neg at hc2
        rw [gain_formula_of_ge hc1, gain_formula_of_ge hc2]
        have hp2 : (0 : ℝ) < Real.cos t2 := lt_of_lt_of_le (by norm_num) hc2
        have hrle : Real.cos t2 ^ expo ≤ Real.cos t1 ^ expo :=
          Real.rpow_le_rpow (le_of_lt hp2) hcos21 he
        have hrpos : (0 : ℝ) < Real.cos t2 ^ expo := Real.rpow_pos_of_pos hp2 expo
        have := Real.logb_le_logb_of_le (by norm_num : (1 : ℝ) < 10) hrpos hrle
        linarith
  · exact gain_zero_eq_max

/-- C1 witness: the amended monotonicity applied at the default
configuration (maxGain = 20, exponent = 2) on the offsets 0 and π/2. -/
theorem gain_monotone_amended_witness :
    CalculateDirectionalGain 20 2 (Real.pi / 2) ≤ CalculateDirectionalGain 20 2 0 ∧
    CalculateDirectionalGain 20 2 0 = 20 :=
  ⟨gain_monotone_amended.1 20 2 0 (Real.pi / 2) (by norm_num) (by norm_num)
      le_rfl (by positivity) le_rfl,
    gain_monotone_amended.2 20 2⟩

/-- C1 counterexample: with the reachable configuration maxGain = 0
(CLI knob antGain), exponent = 2, the offsets t1 = arccos 0.02 and
t2 = π/2 satisfy 0 ≤ t1 ≤ t2 ≤ π/2, yet the gain strictly increases from
t1 to t2, refuting monotone non-increase for every configuration. -/
theorem gain_monotone_counterexample :
    0 ≤ Real.arccos 0.02 ∧ Real.arccos 0.02 ≤ Real.pi / 2 ∧
    CalculateDirectionalGain 0 2 (Real.arccos 0.02)
      < CalculateDirectionalGain 0 2 (Real.pi / 2) := by
  refine ⟨Real.arccos_nonneg _, Real.arccos_le_pi_div_two.mpr (by norm_num), ?_⟩
  have hcos : Real.cos (Real.arccos 0.02) = 0.02 :=
    Real.cos_arccos (by norm_num) (by norm_num)
  have hfloor : CalculateDirectionalGain 0 2 (Real.pi / 2) = -20 :=
    gain_floor_of_lt (by rw [Real.cos_pi_div_two]; norm_num)
  have hformula : CalculateDirectionalGain 0 2 (Real.arccos 0.02)
      = 0 + 10 * Real.logb 10 ((0.02 : ℝ) ^ (2 : ℝ)) := by
    rw [gain_formula_of_ge (by rw [hcos]; norm_num), hcos]
  have hlogb : Real.logb 10 ((0.02 : ℝ) ^ (2 : ℝ))
      = 2 * Real.logb 10 0.02 :=
    Real.logb_rpow_eq_mul_logb_of_pos (by norm_num)
  have hlt : Real.logb 10 0.02 < -1 := by
    have := Real.logb_lt_logb (by norm_num : (1 : ℝ) < 10)
      (by norm_num : (0 : ℝ) < 0.02) (by norm_num : (0.02 : ℝ) < 1 / 10)
    rw [logb_ten_inv_ten] at this
    exact this
  rw [hfloor, hformula, hlogb]
  linarith

/-- C6 (amended): for every configuration with beamwidthExponent ≥ 0 and
maxGain ≥ 20·beamwidthExponent − 20 (the defaults included), the gain is
≥ the −20 dB floor at every offset; and for every configuration and every
offset whose cosine is below 0.01 the gain equals the floor exactly. -/
theorem gain_floor_amended :
    (∀ maxGain expo angleRad : ℝ, 0 ≤ expo → 20 * expo - 20 ≤ maxGain →
      -20 ≤ CalculateDirectionalGain maxGain expo angleRad) ∧
    (∀ maxGain expo angleRad : ℝ, Real.cos angleRad < 0.01 →
      CalculateDirectionalGain maxGain expo angleRad = -20) := by
  exact ⟨fun _ _ _ he hm => gain_ge_floor he hm, fun _ _ _ h => gain_floor_of_lt h⟩

/-- C6 witness: the amended floor bound applied at the default
configuration and the offset π/2, where the floor is attained exactly. -/
theorem gain_floor_amended_witness :
    -20 ≤ CalculateDirectionalGain 20 2 (Real.pi / 2) ∧
    CalculateDirectionalGain 20 2 (Real.pi / 2) = -20 :=
  ⟨gain_floor_amended.1 20 2 (Real.pi / 2) (by norm_num) (by norm_num),
    gain_floor_amended.2 20 2 (Real.pi / 2) (by rw [Real.cos_pi_div_two]; norm_num)⟩

/-- C6 counterexample: with the reachable configuration maxGain = −10
(CLI knob antGain), exponent = 2, the offset arccos 0.05 has cosine 0.05 ≥
0.01, and the returned gain −10 + 10·log10(0.05²) is strictly below the
−20 dB floor. -/
theorem gain_floor_counterexample :
    CalculateDirectionalGain (-10) 2 (Real.arccos 0.05) < -20 := by
  have hcos : Real.cos (Real.arccos 0.05) = 0.05 :=
    Real.cos_arccos (by norm_num) (by norm_num)
  have hformula : CalculateDirectionalGain (-10) 2 (Real.arccos 0.05)
      = -10 + 10 * Real.logb 10 ((0.05 : ℝ) ^ (2 : ℝ)) := by
    rw [gain_formula_of_ge (by rw [hcos]; norm_num), hcos]
  have hlogb : Real.logb 10 ((0.05 : ℝ) ^ (2 : ℝ))
      = 2 * Real.logb 10 0.05 :=
    Real.logb_rpow_eq_mul_logb_of_pos (by norm_num)
  have hlt : Real.logb 10 0.05 < -1 := by
    have := Real.logb_lt_logb (by norm_num : (1 : ℝ) < 10)
      (by norm_num : (0 : ℝ) < 0.05) (by norm_num : (0.05 : ℝ) < 1 / 10)
    rw [logb_ten_inv_ten] at this
    exact this
  rw [hformula, hlogb]
  linarith

lemma clampCosine_mem (c : ℝ) : -1 ≤ clampCosine c ∧ clampCosine c ≤ 1 := by
  simp only [clampCosine]
  split_ifs <;> constructor <;> linarith

/-- C9: CalculateAngle clamps the normalized dot product into [−1, 1]
before acos (so acos is never evaluated outside its domain), returns 0 when
either vector has zero magnitude, and otherwise returns acos of the clamped
cosine; the result always lies in [0, π]. -/
theorem angle_safe :
    ∀ v1 v2 : Vec3,
      (-1 ≤ cosAngleOf v1 v2 ∧ cosAngleOf v1 v2 ≤ 1) ∧
      (0 ≤ CalculateAngle v1 v2 ∧ CalculateAngle v1 v2 ≤ Real.pi) ∧
      (magnitude v1 * magnitude v2 = 0 → CalculateAngle v1 v2 = 0) ∧
      (magnitude v1 * magnitude v2 ≠ 0 →
        CalculateAngle v1 v2 = Real.arccos (cosAngleOf v1 v2)) := by
  intro v1 v2
  refine ⟨clampCosine_mem _, ?_, ?_, ?_⟩
  · unfold CalculateAngle
    split_ifs
    · exact ⟨le_refl 0, Real.pi_nonneg⟩
    · exact ⟨Real.arccos_nonneg _, Real.arccos_le_pi _⟩
  · intro h
    unfold CalculateAngle
    rw [if_pos h]
  · intro h
    unfold CalculateAngle
    rw [if_neg h]

/-- C9 witness: the zero-magnitude degenerate case at a concrete pair of
vectors returns angle 0. -/
theorem angle_safe_witness :
    CalculateAngle ⟨0, 0, 0⟩ ⟨1, 2, 2⟩ = 0 := by
  have hmag : magnitude ⟨0, 0, 0⟩ = 0 := by
    simp [magnitude]
  exact (angle_safe ⟨0, 0, 0⟩ ⟨1, 2, 2⟩).2.2.1 (by rw [hmag, zero_mul])

/-- C4: at every tick UpdateHapState writes velocity (−ω·y, ω·x, 0); that
velocity is perpendicular to the radius vector from the trajectory center
(their dot product is 0), and for ω ≥ 0 its magnitude equals the current
radius times the angular velocity. -/
theorem velocity_tangential :
    ∀ (omega : ℝ) (s : HapState), 0 ≤ omega →
      dotProduct (radiusVector s) (UpdateHapState omega s).vel = 0 ∧
      magnitude (UpdateHapState omega s).vel = magnitude (radiusVector s) * omega := by
  intro omega s homega
  constructor
  · simp only [radiusVector, GetVector, UpdateHapState, dotProduct]
    ring
  · simp only [radiusVector, GetVector, UpdateHapState, magnitude]
    rw [show -omega * s.pos.y * (-omega * s.pos.y) + omega * s.pos.x * (omega * s.pos.x)
          + (0 : ℝ) * 0
        = omega ^ 2 * ((s.pos.x - 0) * (s.pos.x - 0) + (s.pos.y - 0) * (s.pos.y - 0)
          + (s.pos.z - s.pos.z) * (s.pos.z - s.pos.z)) by ring]
    rw [Real.sqrt_mul (sq_nonneg omega), Real.sqrt_sq homega]
    ring

/-- C4 witness: the tangential invariant at the scenarios' own parameters
(ω = 2π/100, initial position (6000, 0, 20000)). -/
theorem velocity_tangential_witness :
    dotProduct (radiusVector ⟨⟨6000, 0, 20000⟩, ⟨0, 0, 0⟩⟩)
        (UpdateHapState (2 * Real.pi / 100) ⟨⟨6000, 0, 20000⟩, ⟨0, 0, 0⟩⟩).vel = 0 ∧
      magnitude (UpdateHapState (2 * Real.pi / 100) ⟨⟨6000, 0, 20000⟩, ⟨0, 0, 0⟩⟩).vel
        = magnitude (radiusVector ⟨⟨6000, 0, 20000⟩, ⟨0, 0, 0⟩⟩) * (2 * Real.pi / 100) :=
  velocity_tangential (2 * Real.pi / 100) ⟨⟨6000, 0, 20000⟩, ⟨0, 0, 0⟩⟩ (by positivity)

/-- C10: every invocation of UpdateHapState writes a velocity whose z
component is 0 and does not write the position; consequently, along a whole
run of tick-then-drift steps, the platform's z coordinate never changes. -/
theorem altitude_invariant :
    ∀ (omega : ℝ) (s : HapState),
      (UpdateHapState omega s).vel.z = 0 ∧
      (UpdateHapState omega s).pos = s.pos ∧
      (∀ (dt : ℝ) (n : ℕ), (simRun omega dt s n).pos.z = s.pos.z) := by
  intro omega s
  refine ⟨rfl, rfl, ?_⟩
  intro dt n
  induction n with
  | zero => rfl
  | succ n ih =>
      simp only [simRun, simStep, driftPosition, UpdateHapState]
      simpa using ih

/-- C2: the link-budget block of hap-sat-hap-simple.cc computes exactly the
spec's reference definitions (FSPL with c = 3e8, EIRP in dBW from dBm, and
the received-power sum), and the decomposition reproduces the components
fed into it. -/
theorem link_budget_matches_spec :
    (∀ distance frequency : ℝ, fsplOf distance frequency = specFspl 3e8 distance frequency) ∧
    (∀ txPowerDbm txGain : ℝ, eirpOf txPowerDbm txGain = specEirp txPowerDbm txGain) ∧
    (∀ eirp fspl atm rxGain : ℝ,
      receivedPowerOf eirp fspl atm rxGain = specReceivedPower eirp fspl atm rxGain) ∧
    (∀ eirp fspl atm rxGain : ℝ,
      receivedPowerOf eirp fspl atm rxGain + fspl + atm - rxGain = eirp ∧
      eirp - receivedPowerOf eirp fspl atm rxGain - atm + rxGain = fspl ∧
      eirp - receivedPowerOf eirp fspl atm rxGain - fspl + rxGain = atm) := by
  refine ⟨fun _ _ => rfl, fun _ _ => rfl, fun _ _ _ _ => rfl, fun e f a g => ?_⟩
  unfold receivedPowerOf
  refine ⟨by ring, by ring, by ring⟩

/-- C3 (amended): the ground-link block computes rain, oxygen and
water-vapor losses from min(altitude, layer height)/1000 as the claim
states; the Sat→HAP block instead uses the residual layer thickness above
the platform, max(layerHeight − altitude, 0)/1000; in both blocks the total
atmospheric loss is the sum of the three terms. -/
theorem atmospheric_loss_amended :
    ∀ hight ra ox wv rch dat : ℚ,
      rainLossGround hight ra rch = ra * min hight rch / 1000 ∧
      oxygenLossGround hight ox dat = ox * min hight dat / 1000 ∧
      vaporLossGround hight wv dat = wv * min hight dat / 1000 ∧
      totalAtmosphericLossGround hight ra ox wv rch dat
        = rainLossGround hight ra rch + oxygenLossGround hight ox dat
          + vaporLossGround hight wv dat ∧
      rainLossSat hight ra rch = ra * max (rch - hight) 0 / 1000 ∧
      oxygenLossSat hight ox dat = ox * max (dat - hight) 0 / 1000 ∧
      vaporLossSat hight wv dat = wv * max (dat - hight) 0 / 1000 ∧
      totalAtmosphericLossSat hight ra ox wv rch dat
        = rainLossSat hight ra rch + oxygenLossSat hight ox dat
          + vaporLossSat hight wv dat := by
  intro hight ra ox wv rch dat
  have hrain : rainLossSat hight ra rch = ra * max (rch - hight) 0 / 1000 := by
    unfold rainLossSat
    rcases lt_or_le hight rch with h | h
    · rw [if_pos h, max_eq_left (by linarith)]
    · rw [if_neg (not_lt.mpr h), max_eq_right (by linarith)]
      ring
  have hgas : gasPathLengthSat hight dat = max (dat - hight) 0 / 1000 := by
    unfold gasPathLengthSat
    rcases lt_or_le hight dat with h | h
    · rw [if_pos h, max_eq_left (by linarith)]
    · rw [if_neg (not_lt.mpr h), max_eq_right (by linarith)]
      norm_num
  refine ⟨?_, ?_, ?_, rfl, hrain, ?_, ?_, rfl⟩
  · unfold rainLossGround; ring
  · unfold oxygenLossGround gasPathLengthGround; ring
  · unfold vaporLossGround gasPathLengthGround; ring
  · unfold oxygenLossSat; rw [hgas]; ring
  · unfold vaporLossSat; rw [hgas]; ring

/-- C3 counterexample: at the scenario defaults (altitude 20000 m, rain
layer 5000 m, rain coefficient 3 dB/km) the Sat→HAP block computes a rain
loss of 0 dB, while the claimed formula rainCoefficient ×
min(altitude, rainLayerHeight)/1000 gives 15 dB. -/
theorem atmospheric_loss_counterexample :
    rainLossSat 20000 3 5000 = 0 ∧
    (3 : ℚ) * min 20000 5000 / 1000 = 15 ∧
    (0 : ℚ) ≠ 15 := by
  refine ⟨?_, by norm_num, by norm_num⟩
  unfold rainLossSat
  norm_num

/-- C5 (amended): the report of hap-sat-hap-simple.cc (same shape in
hap-sat-hap.cc, wifi-moving-hap-router.cc, part_002, part_003, part_004)
guards the loss-ratio division with txPackets > 0 and the throughput and
delay divisions with rxPackets > 0, so it never divides by zero as long as
the elapsed time is non-zero; the per-flow table lossRatio never divides by
zero and reports 0 when txPackets = 0; but the report of wifi-simple-hap.cc
(also part_000, part_001) evaluates the loss-ratio and throughput divisions
unguarded, so it divides by zero whenever txPackets = 0. -/
theorem report_guards_amended :
    ∀ (s : MonitorFlowStats) (t : FlowLinkStats),
      (s.timeLastRxPacket ≠ s.timeFirstTxPacket → (guardedFlowReport s).isSome = true) ∧
      (perFlowLossRatio t).isSome = true ∧
      (t.txPackets = 0 → perFlowLossRatio t = some 0) ∧
      (s.txPackets = 0 → simpleFlowReport s = none) := by
  intro s t
  refine ⟨?_, ?_, ?_, ?_⟩
  · intro helapsed
    have hsub : s.timeLastRxPacket - s.timeFirstTxPacket ≠ 0 :=
      sub_ne_zero.mpr helapsed
    by_cases htx : 0 < s.txPackets
    · have htxq : ((s.txPackets : ℚ)) ≠ 0 := by
        exact_mod_cast Nat.pos_iff_ne_zero.mp htx
      by_cases hrx : 0 < s.rxPackets
      · have hrxq : ((s.rxPackets : ℚ)) ≠ 0 := by
          exact_mod_cast Nat.pos_iff_ne_zero.mp hrx
        simp [guardedFlowReport, divQ, htx, hrx, htxq, hrxq, hsub]
      · simp [guardedFlowReport, divQ, htx, hrx, htxq]
    · by_cases hrx : 0 < s.rxPackets
      · have hrxq : ((s.rxPackets : ℚ)) ≠ 0 := by
          exact_mod_cast Nat.pos_iff_ne_zero.mp hrx
        simp [guardedFlowReport, divQ, htx, hrx, hrxq, hsub]
      · simp [guardedFlowReport, divQ, htx, hrx]
  · by_cases htx : 0 < t.txPackets
    · have htxq : ((t.txPackets : ℚ)) ≠ 0 := by
        exact_mod_cast Nat.pos_iff_ne_zero.mp htx
      simp [perFlowLossRatio, divQ, htx, htxq]
    · simp [perFlowLossRatio, htx]
  · intro h
    simp [perFlowLossRatio, h]
  · intro h
    simp [simpleFlowReport, divQ, h]

/-- C5 witness: the guarded report is defined at a concrete flow record
with distinct first-transmit and last-receive times, the per-flow table
reports 0 for a flow with no transmitted packets, and the unguarded report
of wifi-simple-hap.cc hits a division by zero on that same record. -/
theorem report_guards_amended_witness :
    (guardedFlowReport ⟨0, 0, 0, 0, 1, 0⟩).isSome = true ∧
    perFlowLossRatio ⟨0, 0, 0⟩ = some 0 ∧
    simpleFlowReport ⟨0, 0, 0, 0, 1, 0⟩ = none :=
  ⟨(report_guards_amended ⟨0, 0, 0, 0, 1, 0⟩ ⟨0, 0, 0⟩).1 (by norm_num),
    (report_guards_amended ⟨0, 0, 0, 0, 1, 0⟩ ⟨0, 0, 0⟩).2.2.1 rfl,
    (report_guards_amended ⟨0, 0, 0, 0, 1, 0⟩ ⟨0, 0, 0⟩).2.2.2 rfl⟩

/-- C5 counterexample: the report of wifi-simple-hap.cc evaluates a
division whose denominator is the flow's txPackets with no preceding
check, so the flow record with txPackets = 0 (and elapsed time 1) makes it
divide by zero, refuting the claim that every reporting path checks the
denominator first. -/
theorem report_guards_counterexample :
    simpleFlowReport ⟨0, 5, 100, 0, 1, 0⟩ = none := by
  simp [simpleFlowReport, divQ]

/-- C7: a transmit-begin event whose destination is a group address or
does not resolve in the registry, and a receive-drop event whose header
does not parse or whose source does not resolve, leave the flow-counter
map completely unchanged. -/
theorem unresolved_events_ignored :
    ∀ (reg : ℕ → Option ℕ) (isGroup : ℕ → Bool) (deviceNodeId : ℕ)
      (header : WifiMacHeader) (m : FlowStatsMap),
      (isGroup header.addr1 = true →
        PhyTxBeginCallback reg isGroup deviceNodeId header m = m) ∧
      (reg header.addr1 = none →
        PhyTxBeginCallback reg isGroup deviceNodeId header m = m) ∧
      (PhyRxDropCallback reg deviceNodeId none m = m) ∧
      (reg header.addr2 = none →
        PhyRxDropCallback reg deviceNodeId (some header) m = m) := by
  intro reg isGroup deviceNodeId header m
  refine ⟨?_, ?_, rfl, ?_⟩
  · intro h
    simp [PhyTxBeginCallback, h]
  · intro h
    by_cases hg : isGroup header.addr1
    · simp [PhyTxBeginCallback, hg]
    · simp [PhyTxBeginCallback, hg, h]
  · intro h
    simp [PhyRxDropCallback, h]

/-- C7 witness: with an empty registry, a transmit-begin with an
unresolved destination and a receive-drop with an unresolved source leave
the empty flow map unchanged. -/
theorem unresolved_events_ignored_witness :
    PhyTxBeginCallback (fun _ => none) (fun _ => false) 0 ⟨1, 2⟩ [] = [] ∧
    PhyRxDropCallback (fun _ => none) 0 (some ⟨1, 2⟩) [] = [] :=
  ⟨(unresolved_events_ignored (fun _ => none) (fun _ => false) 0 ⟨1, 2⟩ []).2.1 rfl,
    (unresolved_events_ignored (fun _ => none) (fun _ => false) 0 ⟨1, 2⟩ []).2.2.2 rfl⟩

lemma statsOf_mapUpdate_self (k : ℕ × ℕ) (f : FlowLinkStats → FlowLinkStats)
    (m : FlowStatsMap) : statsOf (mapUpdate k f m) k = f (statsOf m k) := by
  induction m with
  | nil => simp [mapUpdate, statsOf, mapFind]
  | cons e rest ih =>
      by_cases he : e.1 = k
      · simp [mapUpdate, statsOf, mapFind, he]
      · simpa [mapUpdate, statsOf, mapFind, he] using ih

lemma statsOf_mapUpdate_ne (k k' : ℕ × ℕ) (f : FlowLinkStats → FlowLinkStats)
    (m : FlowStatsMap) (h : k' ≠ k) :
    statsOf (mapUpdate k f m) k' = statsOf m k' := by
  have hkk : ¬ k = k' := fun hc => h hc.symm
  induction m with
  | nil => simp [mapUpdate, statsOf, mapFind, hkk]
  | cons e rest ih =>
      by_cases he : e.1 = k
      · simp [mapUpdate, statsOf, mapFind, he, hkk]
      · by_cases he' : e.1 = k'
        · simp [mapUpdate, statsOf, mapFind, he, he', h]
        · simpa [mapUpdate, statsOf, mapFind, he, he'] using ih

/-- C8: on a successful receive, rxPackets of (source endpoint, this
endpoint) is incremented exactly when the header parses, the destination
address is this device's own address or a broadcast, and the source
resolves in the registry; in that case no other key and no other counter
changes, and in every other case the flow map is returned unchanged, so
overheard frames addressed to other endpoints are never counted. -/
theorem rx_counting_iff :
    ∀ (reg : ℕ → Option ℕ) (isBroadcast : ℕ → Bool) (deviceNodeId myAddr : ℕ)
      (m : FlowStatsMap),
      PhyRxEndCallback reg isBroadcast deviceNodeId myAddr none m = m ∧
      (∀ header : WifiMacHeader,
        ¬(header.addr1 = myAddr ∨ isBroadcast header.addr1 = true) →
        PhyRxEndCallback reg isBroadcast deviceNodeId myAddr (some header) m = m) ∧
      (∀ header : WifiMacHeader,
        (header.addr1 = myAddr ∨ isBroadcast header.addr1 = true) →
        reg header.addr2 = none →
        PhyRxEndCallback reg isBroadcast deviceNodeId myAddr (some header) m = m) ∧
      (∀ (header : WifiMacHeader) (srcId : ℕ),
        (header.addr1 = myAddr ∨ isBroadcast header.addr1 = true) →
        reg header.addr2 = some srcId →
        (statsOf (PhyRxEndCallback reg isBroadcast deviceNodeId myAddr (some header) m)
            (srcId, deviceNodeId)).rxPackets
          = (statsOf m (srcId, deviceNodeId)).rxPackets + 1 ∧
        (statsOf (PhyRxEndCallback reg isBroadcast deviceNodeId myAddr (some header) m)
            (srcId, deviceNodeId)).txPackets
          = (statsOf m (srcId, deviceNodeId)).txPackets ∧
        (statsOf (PhyRxEndCallback reg isBroadcast deviceNodeId myAddr (some header) m)
            (srcId, deviceNodeId)).rxDropped
          = (statsOf m (srcId, deviceNodeId)).rxDropped ∧
        (∀ k : ℕ × ℕ, k ≠ (srcId, deviceNodeId) →
          statsOf (PhyRxEndCallback reg isBroadcast deviceNodeId myAddr (some header) m) k
            = statsOf m k)) := by
  intro reg isBroadcast deviceNodeId myAddr m
  refine ⟨rfl, ?_, ?_, ?_⟩
  · intro header h
    simp [PhyRxEndCallback, h]
  · intro header hcond hreg
    simp [PhyRxEndCallback, hcond, hreg]
  · intro header srcId hcond hreg
    have hcall : PhyRxEndCallback reg isBroadcast deviceNodeId myAddr (some header) m
        = mapUpdate (srcId, deviceNodeId)
            (fun s => { s with rxPackets := s.rxPackets + 1 }) m := by
      simp [PhyRxEndCallback, hcond, hreg]
    rw [hcall]
    refine ⟨?_, ?_, ?_, ?_⟩
    · rw [statsOf_mapUpdate_self]
    · rw [statsOf_mapUpdate_self]
    · rw [statsOf_mapUpdate_self]
    · intro k hk
      exact statsOf_mapUpdate_ne _ k _ m hk

/-- C8 witness: a frame addressed to the receiving device (own address 1)
from a source that resolves to node 5, observed at node 7, bumps rxPackets
of the flow (5, 7) from 0 to 1 in the empty map. -/
theorem rx_counting_iff_witness :
    (statsOf (PhyRxEndCallback (fun a => if a = 2 then some 5 else none)
        (fun _ => false) 7 1 (some ⟨1, 2⟩) []) (5, 7)).rxPackets
      = (statsOf ([] : FlowStatsMap) (5, 7)).rxPackets + 1 :=
  ((rx_counting_iff (fun a => if a = 2 then some 5 else none)
      (fun _ => false) 7 1 []).2.2.2 ⟨1, 2⟩ 5 (Or.inl rfl) (by simp)).1

end HapSpec
